import Mathlib

/-!
Shallow embedding of the buyTheBoop actor-pipeline core, translated from the
Rust sources:

* `src/messaging/message.rs` — the envelope data model (`MsgData`, `MsgMetaData`, `Msg`);
* `src/messaging/processor.rs` — the stage loop (`Processor::start`);
* `src/strategy/sliding_average.rs` — the sliding-average actor (windowed
  arithmetic mean with an `active` latch);
* `src/strategy/simple_crossover.rs` — the crossover decision actor;
* `src/exchange/trade.rs` — the trader actor;
* `src/exchange/simulation.rs` — the simulated exchange.

Machine floats (`f64`) are modelled as exact rationals `ℚ`; unsigned machine
integers (`u128`) as `ℕ`, with the one signed cast in the source (`as i128`,
in the sliding-average retain predicate) modelled as a cast into `ℤ`.
Fallible operations (`Result`) are modelled with `Except String`.
-/

/-! ## Data model (src/messaging/message.rs) -/

abbrev Timestamp := ℕ

abbrev AccurateTimestamp := ℕ

abbrev Price := ℚ

abbrev PairId := String

/-- MessageId: an opaque 128-bit uuid, modelled as a natural number. -/
abbrev MessageId := ℕ

/-- PriceUpdated record from message.rs. -/
structure PriceUpdated where
  pair_id : PairId
  datetime : Timestamp
  price : Price
deriving DecidableEq

/-- Order record from message.rs (payload of Bought / Sold). -/
structure Order where
  base : String
  quote : String
  amount : ℚ
deriving DecidableEq

/-- The closed payload sum type MsgData from message.rs. -/
inductive MsgData where
  | LivePriceUpdated (e : PriceUpdated)
  | AveragePriceUpdated (e : PriceUpdated)
  | Bought (o : Order)
  | Sold (o : Order)
  | Buy
  | Sell
  | Shutdown
deriving DecidableEq

/-- Envelope metadata, with the six fields declared by MsgMetaData in
message.rs. -/
structure MsgMetaData where
  id : MessageId
  correlation_time : Timestamp
  creation_time : AccurateTimestamp
  correlation_id : MessageId
  correlation_price : Price
  causation_id : MessageId
deriving DecidableEq

/-- Rust Default for MsgMetaData: all fields zero. -/
def MsgMetaData.default : MsgMetaData :=
  { id := 0, correlation_time := 0, creation_time := 0,
    correlation_id := 0, correlation_price := 0, causation_id := 0 }

/-- The message envelope Msg from message.rs. -/
structure Msg where
  data : MsgData
  metadata : MsgMetaData
deriving DecidableEq

/-- Msg::with_data: wrap a payload with defaulted metadata. -/
def Msg.with_data (data : MsgData) : Msg :=
  { data := data, metadata := MsgMetaData.default }

/-! ## Stage runtime (src/messaging/processor.rs, Processor::start)

The stage loop receives envelopes, intercepts `Shutdown` (re-emitting it
verbatim and stopping), and otherwise calls the actor and stamps each returned
payload with fresh metadata.  The id and time providers are modelled as pure
streams `idp timep : ℕ → ℕ` indexed by a running call counter `k` (each
stamped payload consumes one index, as each loop iteration calls
`new_random()` / `now()` once per payload).

Processor::start (processor.rs lines 39-47) constructs the new metadata with
exactly four fields: `id`, `created` (the now-timestamp), `correlation_id`
(copied from the input) and `causation_id` (the input id).  It does not copy
`correlation_time` or `correlation_price` — indeed its field list does not
match the MsgMetaData declared in message.rs (which has `creation_time` and no
`created`), so processor.rs as committed does not type-check against
message.rs.  The embedding maps `created` to `creation_time` and models the
two omitted fields as Rust defaults (zero). -/

def stampMsg (idp timep : ℕ → ℕ) (k : ℕ) (e : Msg) (d : MsgData) : Msg :=
  { data := d,
    metadata :=
      { id := idp k,
        creation_time := timep k,
        correlation_id := e.metadata.correlation_id,
        causation_id := e.metadata.id,
        correlation_time := 0,
        correlation_price := 0 } }

/-- Stamp each payload returned by the actor for input `e`, in order, each
stamping consuming the next provider index (one `new_random()` / `now()`
call per payload). -/
def stampAll (idp timep : ℕ → ℕ) (k : ℕ) (e : Msg) : List MsgData → List Msg
  | [] => []
  | d :: ds => stampMsg idp timep k e d :: stampAll idp timep (k + 1) e ds

/-- One stage run over a finite input list, mirroring the loop of
Processor::start.  The actor is a state-passing fallible function; on actor
error the stage aborts (the Rust `?` propagates and no further envelope is
sent).  On `Shutdown` the input envelope is forwarded verbatim and the loop
stops.  Otherwise the returned payloads are stamped in order; with
`is_filter = false` the input envelope is re-emitted first (`msgs.insert(0, e)`). -/
def processMsgs {S : Type} (act : S → Msg → Except String (S × List MsgData))
    (is_filter : Bool) (idp timep : ℕ → ℕ) :
    S → ℕ → List Msg → List Msg
  | _, _, [] => []
  | s, k, e :: rest =>
    if e.data = MsgData.Shutdown then [e]
    else
      match act s e with
      | Except.error _ => []
      | Except.ok (s', ps) =>
        let stamped := stampAll idp timep k e ps
        (if is_filter then stamped else e :: stamped)
          ++ processMsgs act is_filter idp timep s' (k + ps.length) rest

/-! ## Sliding-average actor (src/strategy/sliding_average.rs) -/

/-- TimePricePoint from sliding_average.rs. -/
structure TimePricePoint where
  datetime : Timestamp
  price : Price
deriving DecidableEq

/-- SlidingAverage actor state from sliding_average.rs. -/
structure SlidingAverage where
  window_millis : ℕ
  events : List TimePricePoint
  active : Bool
deriving DecidableEq

/-- SlidingAverage::new. -/
def SlidingAverage.new (window_millis : ℕ) : SlidingAverage :=
  { window_millis := window_millis, events := [], active := false }

/-- The retain predicate of sliding_average.rs line 43:
`i.datetime as i128 >= e.datetime as i128 - self.window_millis as i128`. -/
def SlidingAverage.keep (w : ℕ) (t : Timestamp) (i : TimePricePoint) : Bool :=
  decide ((i.datetime : ℤ) ≥ (t : ℤ) - (w : ℤ))

/-- Sum of the retained prices (`self.events.iter().map(|e| e.price).sum()`). -/
def sumPrices (l : List TimePricePoint) : ℚ :=
  (l.map (fun e => e.price)).sum

/-- SlidingAverage::act.  On LivePriceUpdated: push the point, retain the
points within the window, compute the arithmetic mean, latch `active` once a
call has discarded at least one point, and emit the mean iff active.  All
other payloads produce nothing. -/
def SlidingAverage.act (s : SlidingAverage) (msg : Msg) :
    SlidingAverage × List MsgData :=
  match msg.data with
  | MsgData.LivePriceUpdated e =>
    let events1 := s.events ++ [{ datetime := e.datetime, price := e.price }]
    let before_len := events1.length
    let events2 := events1.filter (SlidingAverage.keep s.window_millis e.datetime)
    let avg : PriceUpdated :=
      { pair_id := e.pair_id, datetime := e.datetime,
        price := sumPrices events2 / (events2.length : ℚ) }
    let active' := if before_len > events2.length then true else s.active
    ({ s with events := events2, active := active' },
      if active' then [MsgData.AveragePriceUpdated avg] else [])
  | _ => (s, [])

/-- Run a pure (infallible) actor over a list of envelopes, collecting the
payload list returned for each input in order. -/
def runActor {S : Type} (act : S → Msg → S × List MsgData) :
    S → List Msg → S × List (List MsgData)
  | s, [] => (s, [])
  | s, m :: ms =>
    let r := act s m
    let rec' := runActor act r.1 ms
    (rec'.1, r.2 :: rec'.2)

/-- Modelled from the spec: the canonical EMA-with-warm-up sliding average of
section 4.4 (reporting interval `I`, window `W`, `N = W / I`;
`new_avg = previous_avg + (p - previous_avg) * (2 / (N + 1))` with
`previous_avg = p` on the first point; emit iff the count `k` of observed
points satisfies `k > N`).  No such implementation exists under src/ — every
sliding-average file in the repository implements the windowed arithmetic
mean — so this definition follows the words of the spec and exists only to be
compared against `SlidingAverage.act`. -/
structure SlidingAverageEmaSpec where
  interval : ℕ
  window : ℕ
  count : ℕ
  prev : Option ℚ
deriving DecidableEq

/-- Modelled from the spec: one step of the canonical EMA form (section 4.4,
steps 1-3). -/
def emaSpecAct (s : SlidingAverageEmaSpec) (msg : Msg) :
    SlidingAverageEmaSpec × List MsgData :=
  match msg.data with
  | MsgData.LivePriceUpdated e =>
    let N := s.window / s.interval
    let prev := s.prev.getD e.price
    let new_avg := prev + (e.price - prev) * (2 / ((N : ℚ) + 1))
    let k := s.count + 1
    ({ s with count := k, prev := some new_avg },
      if k > N then
        [MsgData.AveragePriceUpdated
          { pair_id := e.pair_id, datetime := e.datetime, price := new_avg }]
      else [])
  | _ => (s, [])

/-! ## Crossover actor (src/strategy/simple_crossover.rs) -/

/-- SimpleCrossover actor state from simple_crossover.rs. -/
structure SimpleCrossover where
  offset : ℚ
  latest_average : Option ℚ
  latest_live : Option ℚ
deriving DecidableEq

/-- SimpleCrossover::new (Default for the two options is None). -/
def SimpleCrossover.new (offset : ℚ) : SimpleCrossover :=
  { offset := offset, latest_average := none, latest_live := none }

/-- The strict order on `Option` used by `self.latest_live < Some(x)` in the
source (Rust derives PartialOrd on Option with None below Some). -/
def optLtB : Option ℚ → Option ℚ → Bool
  | none, some _ => true
  | some a, some b => decide (a < b)
  | _, none => false

/-- SimpleCrossover::act.  On LivePriceUpdated with the average known, emit
Buy when the price exceeds the upper band and the previous live price (if
any) was below the upper band; else Sell symmetrically against the lower
band; else nothing; then record the live price (only when the average is
known).  On AveragePriceUpdated, record the average.  Other payloads produce
nothing. -/
def SimpleCrossover.act (s : SimpleCrossover) (msg : Msg) :
    SimpleCrossover × List MsgData :=
  match msg.data with
  | MsgData.LivePriceUpdated e =>
    let result :=
      match s.latest_average with
      | some avg =>
        if decide (e.price > avg * (1 + s.offset))
            && (s.latest_live.isNone || optLtB s.latest_live (some (avg * (1 + s.offset)))) then
          [MsgData.Buy]
        else if decide (e.price < avg * (1 - s.offset))
            && (s.latest_live.isNone || optLtB (some (avg * (1 - s.offset))) s.latest_live) then
          [MsgData.Sell]
        else []
      | none => []
    let s' :=
      if s.latest_average.isSome then { s with latest_live := some e.price } else s
    (s', result)
  | MsgData.AveragePriceUpdated e =>
    ({ s with latest_average := some e.price }, [])
  | _ => (s, [])

/-! ## Exchange entities and the trader actor (src/exchange/mod.rs, trade.rs) -/

/-- Asset from exchange/mod.rs. -/
structure Asset where
  name : String
  amount : ℚ
deriving DecidableEq

/-- Assets from exchange/mod.rs. -/
structure Assets where
  base : Option Asset
  quote : Option Asset
deriving DecidableEq

/-- ExchangeOptions from exchange/mod.rs. -/
structure ExchangeOptions where
  fee : ℚ
deriving DecidableEq

/-- OrderType from exchange/mod.rs. -/
inductive OrderType where
  | Buy
  | Sell
deriving DecidableEq

/-- MarketOrder from exchange/mod.rs. -/
structure MarketOrder where
  correlation_id : MessageId
  base : String
  quote : String
  order_type : OrderType
  amount : ℚ
deriving DecidableEq

/-- The Exchange capability the trader consumes (exchange/mod.rs trait
Exchange): an asset query and a fallible order placement that may update the
exchange state and returns the acquired amount. -/
structure ExchangeOps (E : Type) where
  fetchAssets : E → Except String Assets
  placeMarketOrder : E → MarketOrder → Except String (ℚ × E)

/-- The helper `execute` of trade.rs (lines 59-94).  Besides the new exchange
state and the returned payloads, the embedding also returns the list of
orders passed to `place_market_order` during the call, so that order
placement is observable (this mirrors `MockExchange.recorded_orders` used by
the tests of trade.rs). -/
def execute {E : Type} (ops : ExchangeOps E) (ex : E) (asset : Option Asset)
    (order_type : OrderType) (correlation_id : MessageId) :
    Except String (E × List MsgData × List MarketOrder) :=
  match asset with
  | some asset =>
    if 0 < asset.amount then
      let order : MarketOrder :=
        { base := "BTC", quote := "USDT", amount := asset.amount,
          order_type := order_type, correlation_id := correlation_id }
      match ops.placeMarketOrder ex order with
      | Except.ok (amount, ex') =>
        Except.ok (ex',
          [match order.order_type with
           | OrderType.Buy =>
             MsgData.Bought { amount := amount, quote := order.quote, base := order.base }
           | OrderType.Sell =>
             MsgData.Sold { amount := amount, quote := order.quote, base := order.base }],
          [order])
      | Except.error err => Except.error err
    else Except.ok (ex, [], [])
  | none => Except.ok (ex, [], [])

/-- Trader::act from trade.rs (lines 31-57): on Buy, fetch the assets and
execute against the quote balance; on Sell, against the base balance; all
other payloads produce nothing. -/
def Trader.act {E : Type} (ops : ExchangeOps E) (ex : E) (msg : Msg) :
    Except String (E × List MsgData × List MarketOrder) :=
  match msg.data with
  | MsgData.Buy =>
    match ops.fetchAssets ex with
    | Except.ok assets =>
      execute ops ex assets.quote OrderType.Buy msg.metadata.correlation_id
    | Except.error err => Except.error err
  | MsgData.Sell =>
    match ops.fetchAssets ex with
    | Except.ok assets =>
      execute ops ex assets.base OrderType.Sell msg.metadata.correlation_id
    | Except.error err => Except.error err
  | _ => Except.ok (ex, [], [])

/-- MockExchange from exchange/mod.rs: fixed assets, order placement records
the order and returns its amount. -/
def mockExchangeOps (assets : Assets) : ExchangeOps (List MarketOrder) :=
  { fetchAssets := fun _ => Except.ok assets,
    placeMarketOrder := fun recorded order =>
      Except.ok (order.amount, recorded ++ [order]) }

/-! ## Simulated exchange (src/exchange/simulation.rs) -/

/-- ExchangeSimulation state from simulation.rs. -/
structure ExchangeSimulation where
  event_stream : List Msg
  assets : Assets
  prices : List (MessageId × ℚ)
  options : ExchangeOptions

/-- Lookup in the correlation-id price index (the HashMap `prices`). -/
def lookupPrice (prices : List (MessageId × ℚ)) (cid : MessageId) : Option ℚ :=
  (prices.find? (fun p => p.1 = cid)).map (fun p => p.2)

/-- ExchangeSimulation::place_market_order (simulation.rs lines 92-124):
price is looked up by the order correlation id (panic on a miss, modelled as
an error); `amount = order.amount * (1 - fee)`; Buy converts the quote
balance into `amount / price` base (0 on a non-positive price), Sell converts
the base balance into `amount * price` quote; the acquired amount is
returned. -/
def ExchangeSimulation.placeMarketOrder (ex : ExchangeSimulation)
    (order : MarketOrder) : Except String (ℚ × ExchangeSimulation) :=
  match lookupPrice ex.prices order.correlation_id with
  | none => Except.error "unknown correlation id"
  | some price =>
    let amount := order.amount * (1 - ex.options.fee)
    match order.order_type with
    | OrderType.Buy =>
      let amount := if 0 < price then amount / price else 0
      Except.ok (amount,
        { ex with assets :=
          { quote := some { name := "USDT", amount := 0 },
            base := some { name := "BTC", amount := amount } } })
    | OrderType.Sell =>
      let amount := amount * price
      Except.ok (amount,
        { ex with assets :=
          { quote := some { name := "USDT", amount := amount },
            base := some { name := "BTC", amount := 0 } } })

/-- The retained window after processing a live update: the stored points
plus the new point, filtered by the retain predicate (sliding_average.rs
lines 37-43). -/
def SlidingAverage.retained (s : SlidingAverage) (e : PriceUpdated) :
    List TimePricePoint :=
  (s.events ++ [({ datetime := e.datetime, price := e.price } : TimePricePoint)]).filter
    (SlidingAverage.keep s.window_millis e.datetime)

/-- The concrete input envelope exhibiting the metadata stamping bug (C2):
an input with nonzero `correlation_time` and `correlation_price`. -/
def procBugInput : Msg :=
  { data := MsgData.Sell,
    metadata := { id := 8, correlation_time := 5, creation_time := 3,
                  correlation_id := 7, correlation_price := 9,
                  causation_id := 7 } }

/-- The concrete simulated exchange used to witness C8: one recorded price 2
under correlation id 0, a 40 USDT quote balance and no fee. -/
def simSample : ExchangeSimulation :=
  { event_stream := [],
    assets := { base := none, quote := some { name := "USDT", amount := 40 } },
    prices := [(0, 2)],
    options := { fee := 0 } }

/-- The constant actor of the processor.rs tests (MockActor): always returns
the single payload Buy. -/
def mockActor : Unit → Msg → Except String (Unit × List MsgData) :=
  fun u _ => Except.ok (u, [MsgData.Buy])

/-! ## Helper lemmas -/

theorem stampAll_map_data (idp timep : ℕ → ℕ) (e : Msg) :
    ∀ (ds : List MsgData) (k : ℕ),
      (stampAll idp timep k e ds).map Msg.data = ds := by
  intro ds
  induction ds with
  | nil => intro k; rfl
  | cons d ds ih => intro k; simp [stampAll, stampMsg, ih]

theorem mem_stampAll_data {idp timep : ℕ → ℕ} {e : Msg} {ds : List MsgData}
    {k : ℕ} {m : Msg} (hm : m ∈ stampAll idp timep k e ds) : m.data ∈ ds := by
  have := List.mem_map_of_mem Msg.data hm
  rwa [stampAll_map_data] at this

theorem isNone_or_optLtB_iff (o : Option ℚ) (u : ℚ) :
    (o.isNone || optLtB o (some u)) = true ↔
      (o = none ∨ ∃ l, o = some l ∧ l < u) := by
  cases o <;> simp [optLtB]

theorem isNone_or_optGtB_iff (o : Option ℚ) (u : ℚ) :
    (o.isNone || optLtB (some u) o) = true ↔
      (o = none ∨ ∃ l, o = some l ∧ u < l) := by
  cases o <;> simp [optLtB]

/-- The freshly pushed point always survives the retain predicate. -/
theorem keep_self (w : ℕ) (e : PriceUpdated) :
    SlidingAverage.keep w e.datetime { datetime := e.datetime, price := e.price }
      = true := by
  simp only [SlidingAverage.keep, decide_eq_true_eq]
  omega

/-- The Buy guard of SimpleCrossover::act, as a proposition. -/
theorem buyCond_iff (s : SimpleCrossover) (a p : ℚ) :
    (decide (a * (1 + s.offset) < p) &&
      (s.latest_live.isNone || optLtB s.latest_live (some (a * (1 + s.offset))))) = true ↔
    (a * (1 + s.offset) < p ∧
      (s.latest_live = none ∨
        ∃ l, s.latest_live = some l ∧ l < a * (1 + s.offset))) := by
  rw [Bool.and_eq_true, decide_eq_true_eq, isNone_or_optLtB_iff]

/-- The Sell guard of SimpleCrossover::act, as a proposition. -/
theorem sellCond_iff (s : SimpleCrossover) (a p : ℚ) :
    (decide (p < a * (1 - s.offset)) &&
      (s.latest_live.isNone || optLtB (some (a * (1 - s.offset))) s.latest_live)) = true ↔
    (p < a * (1 - s.offset) ∧
      (s.latest_live = none ∨
        ∃ l, s.latest_live = some l ∧ a * (1 - s.offset) < l)) := by
  rw [Bool.and_eq_true, decide_eq_true_eq, isNone_or_optGtB_iff]

/-! ## Claim theorems -/


/-- C2 (code_bug): Processor::start stamps a fresh id, the creation time,
`correlation_id = E.correlation_id` and `causation_id = E.id`, but does NOT
copy `correlation_time` or `correlation_price` from the input envelope: its
MsgMetaData literal (processor.rs lines 41-46) has only four fields and does
not even match the six-field MsgMetaData of message.rs (there is no `created`
field there), so the file as committed does not type-check.  Evaluating the
embedded stamping at an input with `correlation_time = 5` and
`correlation_price = 9` yields zeros instead. -/
theorem processor_metadata_stamp_bug :
    (stampMsg (fun k => 100 + k) (fun k => 200 + k) 0 procBugInput
        MsgData.Buy).metadata =
      { id := 100, correlation_time := 0, creation_time := 200,
        correlation_id := 7, correlation_price := 0, causation_id := 8 } ∧
    (stampMsg (fun k => 100 + k) (fun k => 200 + k) 0 procBugInput
        MsgData.Buy).metadata.correlation_time ≠
      procBugInput.metadata.correlation_time ∧
    (stampMsg (fun k => 100 + k) (fun k => 200 + k) 0 procBugInput
        MsgData.Buy).metadata.correlation_price ≠
      procBugInput.metadata.correlation_price := by
  refine ⟨rfl, by decide, ?_⟩
  simp [stampMsg, procBugInput]

/-- C9: with window 1000 ms, on LivePriceUpdated(t=0, p=1) then
LivePriceUpdated(t=1001, p=2), the sliding-average actor emits nothing for
the first input and exactly one AveragePriceUpdated(t=1001, price=2) for the
second (the first point has aged out, so the retained window is the single
point (1001, 2) and its mean is 2). -/
theorem sliding_average_seed_scenario :
    (runActor SlidingAverage.act (SlidingAverage.new 1000)
      [Msg.with_data (MsgData.LivePriceUpdated
        { pair_id := "pair_id", datetime := 0, price := 1 }),
       Msg.with_data (MsgData.LivePriceUpdated
        { pair_id := "pair_id", datetime := 1001, price := 2 })]).2
    = [[], [MsgData.AveragePriceUpdated
        { pair_id := "pair_id", datetime := 1001, price := 2 }]] := by
  norm_num [runActor, SlidingAverage.act, SlidingAverage.new, SlidingAverage.keep,
    Msg.with_data, sumPrices, List.filter]

/-- C8: when the order correlation id has a recorded price, the simulated
exchange computes `net = order.amount * (1 - fee)`; a Buy returns
`net / price` (0 on a non-positive price) and moves the whole quote balance
into the base balance; a Sell returns `net * price` and moves the whole base
balance into the quote balance. -/
theorem simulation_place_market_order_spec (ex : ExchangeSimulation)
    (order : MarketOrder) (price : ℚ)
    (h : lookupPrice ex.prices order.correlation_id = some price) :
    (order.order_type = OrderType.Buy →
      ex.placeMarketOrder order =
        Except.ok (if 0 < price then order.amount * (1 - ex.options.fee) / price else 0,
          { ex with assets :=
            { quote := some { name := "USDT", amount := 0 },
              base := some { name := "BTC",
                              amount := (if 0 < price then
                                order.amount * (1 - ex.options.fee) / price else 0) } } })) ∧
    (order.order_type = OrderType.Sell →
      ex.placeMarketOrder order =
        Except.ok (order.amount * (1 - ex.options.fee) * price,
          { ex with assets :=
            { quote := some { name := "USDT",
                               amount := order.amount * (1 - ex.options.fee) * price },
              base := some { name := "BTC", amount := 0 } } })) := by
  constructor
  · intro hb
    simp [ExchangeSimulation.placeMarketOrder, h, hb]
  · intro hs
    simp [ExchangeSimulation.placeMarketOrder, h, hs]


/-- Witness for C8: the Buy branch of the theorem applied to `simSample`. -/
theorem simulation_place_market_order_witness :
    lookupPrice simSample.prices 0 = some 2 ∧
    simSample.placeMarketOrder
        { correlation_id := 0, base := "BTC", quote := "USDT",
          order_type := OrderType.Buy, amount := 40 }
      = Except.ok
          (if 0 < (2:ℚ) then (40:ℚ) * (1 - simSample.options.fee) / 2 else 0,
          { simSample with assets :=
            { quote := some { name := "USDT", amount := 0 },
              base := some { name := "BTC",
                              amount := (if 0 < (2:ℚ) then
                                (40:ℚ) * (1 - simSample.options.fee) / 2 else 0) } } }) :=
  ⟨rfl, (simulation_place_market_order_spec simSample
      { correlation_id := 0, base := "BTC", quote := "USDT",
        order_type := OrderType.Buy, amount := 40 } 2 rfl).1 rfl⟩

/-- C7: on a Buy envelope, the trader fetches the assets; if the quote asset
is absent or non-positive it places no order and emits nothing; otherwise it
places exactly one MarketOrder carrying the envelope correlation id, pair
BTC/USDT, order type Buy and the full quote amount, and on success emits
exactly one Bought whose amount is the amount returned by the exchange. -/
theorem trader_buy_spec {E : Type} (ops : ExchangeOps E) (ex : E) (msg : Msg)
    (assets : Assets)
    (hmsg : msg.data = MsgData.Buy)
    (hfetch : ops.fetchAssets ex = Except.ok assets) :
    (assets.quote = none → Trader.act ops ex msg = Except.ok (ex, [], [])) ∧
    (∀ q, assets.quote = some q → q.amount ≤ 0 →
      Trader.act ops ex msg = Except.ok (ex, [], [])) ∧
    (∀ q amount ex', assets.quote = some q → 0 < q.amount →
      ops.placeMarketOrder ex
          { correlation_id := msg.metadata.correlation_id, base := "BTC",
            quote := "USDT", order_type := OrderType.Buy, amount := q.amount }
        = Except.ok (amount, ex') →
      Trader.act ops ex msg =
        Except.ok (ex',
          [MsgData.Bought { base := "BTC", quote := "USDT", amount := amount }],
          [{ correlation_id := msg.metadata.correlation_id, base := "BTC",
             quote := "USDT", order_type := OrderType.Buy, amount := q.amount }])) := by
  refine ⟨?_, ?_, ?_⟩
  · intro hq
    simp [Trader.act, hmsg, hfetch, execute, hq]
  · intro q hq hle
    simp [Trader.act, hmsg, hfetch, execute, hq, not_lt.mpr hle]
  · intro q amount ex' hq hpos hplace
    simp [Trader.act, hmsg, hfetch, execute, hq, hpos, hplace]

/-- Witness for C7: on a Buy envelope against a mock exchange holding 40
USDT, exactly one order for the full 40 is recorded and one Bought for the
returned amount is emitted. -/
theorem trader_buy_witness :
    Trader.act
        (mockExchangeOps { base := none, quote := some { name := "USDT", amount := 40 } })
        ([] : List MarketOrder) (Msg.with_data MsgData.Buy)
      = Except.ok
          ([{ correlation_id := 0, base := "BTC", quote := "USDT",
              order_type := OrderType.Buy, amount := (40:ℚ) }],
           [MsgData.Bought { base := "BTC", quote := "USDT", amount := 40 }],
           [{ correlation_id := 0, base := "BTC", quote := "USDT",
              order_type := OrderType.Buy, amount := (40:ℚ) }]) :=
  (trader_buy_spec
      (mockExchangeOps { base := none, quote := some { name := "USDT", amount := 40 } })
      ([] : List MarketOrder) (Msg.with_data MsgData.Buy)
      { base := none, quote := some { name := "USDT", amount := 40 } }
      rfl rfl).2.2
    { name := "USDT", amount := 40 } 40
    [{ correlation_id := 0, base := "BTC", quote := "USDT",
       order_type := OrderType.Buy, amount := (40:ℚ) }]
    rfl (by decide) rfl

/-- C6: single-step characterization of SimpleCrossover::act on a
LivePriceUpdated with price p.  When the average a is known, with
`upper = a * (1 + offset)` and `lower = a * (1 - offset)`: Buy is emitted
exactly when `p > upper` and the previous live price is unset or below upper;
otherwise Sell exactly when `p < lower` and the previous live price is unset
or above lower; otherwise nothing; and the live price is then recorded.  When
the average is unset, nothing is emitted and the state is unchanged (in
particular `latest_live` stays unset). -/
theorem crossover_act_step (s : SimpleCrossover) (msg : Msg) (e : PriceUpdated)
    (hmsg : msg.data = MsgData.LivePriceUpdated e) :
    (∀ a, s.latest_average = some a →
      ((s.act msg).2 = [MsgData.Buy] ↔
        (a * (1 + s.offset) < e.price ∧
          (s.latest_live = none ∨
            ∃ l, s.latest_live = some l ∧ l < a * (1 + s.offset)))) ∧
      ((s.act msg).2 = [MsgData.Sell] ↔
        (¬(a * (1 + s.offset) < e.price ∧
            (s.latest_live = none ∨
              ∃ l, s.latest_live = some l ∧ l < a * (1 + s.offset))) ∧
          e.price < a * (1 - s.offset) ∧
          (s.latest_live = none ∨
            ∃ l, s.latest_live = some l ∧ a * (1 - s.offset) < l))) ∧
      ((s.act msg).2 = [MsgData.Buy] ∨ (s.act msg).2 = [MsgData.Sell] ∨
        (s.act msg).2 = []) ∧
      (s.act msg).1 = { s with latest_live := some e.price }) ∧
    (s.latest_average = none → s.act msg = (s, [])) := by
  constructor
  · intro a ha
    cases hll : s.latest_live with
    | none =>
      by_cases hbuy : a * (1 + s.offset) < e.price <;>
      by_cases hsell : e.price < a * (1 - s.offset) <;>
      exact ⟨by simp [SimpleCrossover.act, hmsg, ha, hll, optLtB, hbuy, hsell],
             by simp [SimpleCrossover.act, hmsg, ha, hll, optLtB, hbuy, hsell],
             by simp [SimpleCrossover.act, hmsg, ha, hll, optLtB, hbuy, hsell],
             by simp [SimpleCrossover.act, hmsg, ha, hll, optLtB, hbuy, hsell]⟩
    | some l =>
      by_cases hbuy1 : a * (1 + s.offset) < e.price <;>
      by_cases hbuy2 : l < a * (1 + s.offset) <;>
      by_cases hsell1 : e.price < a * (1 - s.offset) <;>
      by_cases hsell2 : a * (1 - s.offset) < l <;>
      exact ⟨by simp [SimpleCrossover.act, hmsg, ha, hll, optLtB,
               hbuy1, hbuy2, hsell1, hsell2],
             by simp [SimpleCrossover.act, hmsg, ha, hll, optLtB,
               hbuy1, hbuy2, hsell1, hsell2],
             by simp [SimpleCrossover.act, hmsg, ha, hll, optLtB,
               hbuy1, hbuy2, hsell1, hsell2],
             by simp [SimpleCrossover.act, hmsg, ha, hll, optLtB,
               hbuy1, hbuy2, hsell1, hsell2]⟩
  · intro ha
    simp [SimpleCrossover.act, hmsg, ha]

/-- Witness for C6: concrete crossover state with average 1, no previous
live price, and a live update at price 2; the theorem applies and in
particular the new state records the live price. -/
theorem crossover_act_step_witness :
    (SimpleCrossover.act { offset := 0, latest_average := some 1, latest_live := none }
        (Msg.with_data (MsgData.LivePriceUpdated
          { pair_id := "pair_id", datetime := 0, price := 2 }))).1
      = { offset := 0, latest_average := some 1, latest_live := some 2 } :=
  ((crossover_act_step
      { offset := 0, latest_average := some 1, latest_live := none }
      (Msg.with_data (MsgData.LivePriceUpdated
        { pair_id := "pair_id", datetime := 0, price := 2 }))
      { pair_id := "pair_id", datetime := 0, price := 2 } rfl).1 1 rfl).2.2.2


/-- C3: a non-Shutdown input envelope processed with `is_filter = false` is
emitted first, unchanged, followed by the envelopes built from the actor
payloads in returned order (their payloads are exactly the returned list, in
order); when the actor returns no payloads the input envelope alone is
emitted for that input. -/
theorem processor_passthrough {S : Type}
    (act : S → Msg → Except String (S × List MsgData))
    (idp timep : ℕ → ℕ) (s s' : S) (k : ℕ) (e : Msg) (rest : List Msg)
    (ps : List MsgData)
    (he : e.data ≠ MsgData.Shutdown)
    (hact : act s e = Except.ok (s', ps)) :
    processMsgs act false idp timep s k (e :: rest)
      = e :: (stampAll idp timep k e ps
          ++ processMsgs act false idp timep s' (k + ps.length) rest)
    ∧ (stampAll idp timep k e ps).map Msg.data = ps
    ∧ (ps = [] →
        processMsgs act false idp timep s k (e :: rest)
          = e :: processMsgs act false idp timep s' k rest) := by
  refine ⟨?_, stampAll_map_data idp timep e ps k, ?_⟩
  · simp [processMsgs, he, hact]
  · intro hps
    subst hps
    simp [processMsgs, he, hact, stampAll]

/-- Witness for C3: the mock actor over one Sell input. -/
theorem processor_passthrough_witness :
    processMsgs mockActor false id id () 0 [Msg.with_data MsgData.Sell]
      = Msg.with_data MsgData.Sell ::
          (stampAll id id 0 (Msg.with_data MsgData.Sell) [MsgData.Buy]
            ++ processMsgs mockActor false id id () (0 + 1) []) :=
  (processor_passthrough mockActor id id () () 0 (Msg.with_data MsgData.Sell)
    [] [MsgData.Buy] (by decide) rfl).1

/-- C1: when the input stream ends in exactly one Shutdown envelope (and the
actor always succeeds and never returns a Shutdown payload), the stage
forwards that envelope verbatim as the last element of its output, every
earlier output is a non-Shutdown envelope, and the output contains exactly
one Shutdown. -/
theorem processor_shutdown_flow {S : Type}
    (act : S → Msg → Except String (S × List MsgData)) (is_filter : Bool)
    (idp timep : ℕ → ℕ) (pre : List Msg) (s : S) (k : ℕ) (E : Msg)
    (htot : ∀ s' m, ∃ r, act s' m = Except.ok r)
    (hnoshut : ∀ s' m r, act s' m = Except.ok r → MsgData.Shutdown ∉ r.2)
    (hpre : ∀ m ∈ pre, m.data ≠ MsgData.Shutdown)
    (hE : E.data = MsgData.Shutdown) :
    ∃ front,
      processMsgs act is_filter idp timep s k (pre ++ [E]) = front ++ [E]
      ∧ (∀ m ∈ front, m.data ≠ MsgData.Shutdown)
      ∧ (processMsgs act is_filter idp timep s k (pre ++ [E])).countP
          (fun m => decide (m.data = MsgData.Shutdown)) = 1 := by
  have aux : ∀ (p : List Msg) (s0 : S) (k0 : ℕ),
      (∀ m ∈ p, m.data ≠ MsgData.Shutdown) →
      ∃ front,
        processMsgs act is_filter idp timep s0 k0 (p ++ [E]) = front ++ [E]
        ∧ ∀ m ∈ front, m.data ≠ MsgData.Shutdown := by
    intro p
    induction p with
    | nil =>
      intro s0 k0 _
      refine ⟨[], ?_, by simp⟩
      simp [processMsgs, hE]
    | cons e p ih =>
      intro s0 k0 hp
      have he : e.data ≠ MsgData.Shutdown := hp e (by simp)
      obtain ⟨⟨s1, ps⟩, hok⟩ := htot s0 e
      obtain ⟨front, hfront, hfrontp⟩ :=
        ih s1 (k0 + ps.length) (fun m hm => hp m (by simp [hm]))
      have hstep : processMsgs act is_filter idp timep s0 k0 ((e :: p) ++ [E])
          = (if is_filter then stampAll idp timep k0 e ps
              else e :: stampAll idp timep k0 e ps)
            ++ processMsgs act is_filter idp timep s1 (k0 + ps.length) (p ++ [E]) := by
        simp [processMsgs, he, hok]
      refine ⟨(if is_filter then stampAll idp timep k0 e ps
          else e :: stampAll idp timep k0 e ps) ++ front, ?_, ?_⟩
      · rw [hstep, hfront, List.append_assoc]
      · intro m hm
        rcases List.mem_append.mp hm with hm | hm
        · by_cases hf : is_filter
          · rw [if_pos hf] at hm
            intro hd
            exact hnoshut s0 e (s1, ps) hok (hd ▸ mem_stampAll_data hm)
          · rw [if_neg hf] at hm
            rcases List.mem_cons.mp hm with hm | hm
            · exact hm ▸ he
            · intro hd
              exact hnoshut s0 e (s1, ps) hok (hd ▸ mem_stampAll_data hm)
        · exact hfrontp m hm
  obtain ⟨front, h1, h2⟩ := aux pre s k hpre
  refine ⟨front, h1, h2, ?_⟩
  rw [h1, List.countP_append]
  have hz : front.countP (fun m => decide (m.data = MsgData.Shutdown)) = 0 :=
    List.countP_eq_zero.mpr (fun m hm => by simpa using h2 m hm)
  simp [hz, List.countP_cons, hE]

/-- Witness for C1: the mock actor, one Sell input followed by the Shutdown
envelope. -/
theorem processor_shutdown_flow_witness :
    ∃ front,
      processMsgs mockActor false id id () 0
          ([Msg.with_data MsgData.Sell] ++ [Msg.with_data MsgData.Shutdown])
        = front ++ [Msg.with_data MsgData.Shutdown]
      ∧ (∀ m ∈ front, m.data ≠ MsgData.Shutdown)
      ∧ (processMsgs mockActor false id id () 0
          ([Msg.with_data MsgData.Sell] ++ [Msg.with_data MsgData.Shutdown])).countP
          (fun m => decide (m.data = MsgData.Shutdown)) = 1 :=
  processor_shutdown_flow mockActor false id id
    [Msg.with_data MsgData.Sell] () 0 (Msg.with_data MsgData.Shutdown)
    (fun _ _ => ⟨((), [MsgData.Buy]), rfl⟩)
    (fun _ _ r h => by cases h; simp)
    (by decide) rfl


/-- Unfolding of SlidingAverage::act on a live update, phrased with the
retained window. -/
theorem sliding_act_live (s : SlidingAverage) (msg : Msg) (e : PriceUpdated)
    (hd : msg.data = MsgData.LivePriceUpdated e) :
    s.act msg =
      ({ s with events := s.retained e,
                active := if (s.retained e).length < s.events.length + 1 then true
                  else s.active },
       if (if (s.retained e).length < s.events.length + 1 then true
           else s.active) then
         [MsgData.AveragePriceUpdated
           { pair_id := e.pair_id, datetime := e.datetime,
             price := sumPrices (s.retained e) / ((s.retained e).length : ℚ) }]
       else []) := by
  simp [SlidingAverage.act, hd, SlidingAverage.retained, List.length_append]

/-- C10: the sliding-average emission state is latching.  The `active` flag
is never cleared by any input; while active, every LivePriceUpdated call
returns exactly one AveragePriceUpdated whose price is the arithmetic mean of
the currently retained points (whether or not any point ages out on that
call); and a call that discards at least one stored point sets `active`. -/
theorem sliding_average_active_latch (s : SlidingAverage) (msg : Msg) :
    (s.active = true → (s.act msg).1.active = true) ∧
    (∀ e, msg.data = MsgData.LivePriceUpdated e → s.active = true →
      (s.act msg).2 =
        [MsgData.AveragePriceUpdated
          { pair_id := e.pair_id, datetime := e.datetime,
            price := sumPrices (s.retained e) / ((s.retained e).length : ℚ) }]) ∧
    (∀ e, msg.data = MsgData.LivePriceUpdated e →
      (s.retained e).length < s.events.length + 1 →
      (s.act msg).1.active = true) := by
  refine ⟨?_, ?_, ?_⟩
  · intro ha
    cases hd : msg.data with
    | LivePriceUpdated e =>
      rw [sliding_act_live s msg e hd]
      simp [ha]
    | AveragePriceUpdated e => simp [SlidingAverage.act, hd, ha]
    | Bought o => simp [SlidingAverage.act, hd, ha]
    | Sold o => simp [SlidingAverage.act, hd, ha]
    | Buy => simp [SlidingAverage.act, hd, ha]
    | Sell => simp [SlidingAverage.act, hd, ha]
    | Shutdown => simp [SlidingAverage.act, hd, ha]
  · intro e hd ha
    rw [sliding_act_live s msg e hd]
    simp [ha]
  · intro e hd hlen
    rw [sliding_act_live s msg e hd]
    simp [hlen]

/-- Witness for C10: an active state with one stored point and a new live
update emits the mean of the retained points. -/
theorem sliding_average_active_latch_witness :
    (SlidingAverage.act
        { window_millis := 1000, events := [{ datetime := 0, price := 1 }],
          active := true }
        (Msg.with_data (MsgData.LivePriceUpdated
          { pair_id := "pair_id", datetime := 10, price := 3 }))).2 =
      [MsgData.AveragePriceUpdated
        { pair_id := "pair_id", datetime := 10,
          price := sumPrices
              (SlidingAverage.retained
                { window_millis := 1000, events := [{ datetime := 0, price := 1 }],
                  active := true }
                { pair_id := "pair_id", datetime := 10, price := 3 }) /
            (((SlidingAverage.retained
                { window_millis := 1000, events := [{ datetime := 0, price := 1 }],
                  active := true }
                { pair_id := "pair_id", datetime := 10, price := 3 }).length : ℚ)) }] :=
  (sliding_average_active_latch
      { window_millis := 1000, events := [{ datetime := 0, price := 1 }],
        active := true }
      (Msg.with_data (MsgData.LivePriceUpdated
        { pair_id := "pair_id", datetime := 10, price := 3 }))).2.1
    { pair_id := "pair_id", datetime := 10, price := 3 } rfl rfl

/-- C4 counterexample: at interval 1000, window 1000 (so N = 1), on
LivePriceUpdated(t=0, p=1) then LivePriceUpdated(t=1000, p=2), the EMA form
of the spec emits AveragePriceUpdated(t=1000, p=2) on the second update,
whereas the actor of strategy/sliding_average.rs (which implements a
windowed arithmetic mean and has no interval parameter at all) emits nothing
on either update: both points still lie within the window, so the actor has
never discarded a point and is not yet active. -/
theorem sliding_average_ema_cex :
    (runActor SlidingAverage.act (SlidingAverage.new 1000)
      [Msg.with_data (MsgData.LivePriceUpdated
        { pair_id := "pair_id", datetime := 0, price := 1 }),
       Msg.with_data (MsgData.LivePriceUpdated
        { pair_id := "pair_id", datetime := 1000, price := 2 })]).2
      = [[], []] ∧
    (runActor emaSpecAct
      { interval := 1000, window := 1000, count := 0, prev := none }
      [Msg.with_data (MsgData.LivePriceUpdated
        { pair_id := "pair_id", datetime := 0, price := 1 }),
       Msg.with_data (MsgData.LivePriceUpdated
        { pair_id := "pair_id", datetime := 1000, price := 2 })]).2
      = [[], [MsgData.AveragePriceUpdated
          { pair_id := "pair_id", datetime := 1000, price := 2 }]] ∧
    ([[], []] : List (List MsgData))
      ≠ [[], [MsgData.AveragePriceUpdated
          { pair_id := "pair_id", datetime := 1000, price := 2 }]] := by
  refine ⟨?_, ?_, by decide⟩
  · norm_num [runActor, SlidingAverage.act, SlidingAverage.new, SlidingAverage.keep,
      Msg.with_data, sumPrices, List.filter]
  · norm_num [runActor, emaSpecAct, Msg.with_data]

/-- C4 as amended: the sliding-average actor of strategy/sliding_average.rs
is a windowed arithmetic mean, not an EMA.  Starting from a fresh state with
window W, as long as every observed datetime is within W of every other, no
point is ever discarded, the actor stays inactive and emits nothing (the
warm-up); and any LivePriceUpdated call that does discard a stored point
emits exactly one AveragePriceUpdated carrying the arithmetic mean of the
retained points. -/
theorem sliding_average_windowed_warmup (W : ℕ) (ps : List PriceUpdated)
    (h : ∀ p ∈ ps, ∀ q ∈ ps, ((q.datetime : ℤ) ≥ (p.datetime : ℤ) - (W : ℤ))) :
    (runActor SlidingAverage.act (SlidingAverage.new W)
        (ps.map (fun e => Msg.with_data (MsgData.LivePriceUpdated e)))).2
      = List.replicate ps.length []
    ∧ (runActor SlidingAverage.act (SlidingAverage.new W)
        (ps.map (fun e => Msg.with_data (MsgData.LivePriceUpdated e)))).1
      = { window_millis := W,
          events := ps.map (fun e => { datetime := e.datetime, price := e.price }),
          active := false }
    ∧ (∀ (s : SlidingAverage) (msg : Msg) (e : PriceUpdated),
        msg.data = MsgData.LivePriceUpdated e →
        (s.retained e).length < s.events.length + 1 →
        (s.act msg).2 =
          [MsgData.AveragePriceUpdated
            { pair_id := e.pair_id, datetime := e.datetime,
              price := sumPrices (s.retained e) / ((s.retained e).length : ℚ) }]) := by
  have aux : ∀ (l : List PriceUpdated) (evs : List TimePricePoint),
      (∀ p ∈ l, ∀ i ∈ evs, SlidingAverage.keep W p.datetime i = true) →
      (∀ p ∈ l, ∀ q ∈ l,
        SlidingAverage.keep W p.datetime
          { datetime := q.datetime, price := q.price } = true) →
      runActor SlidingAverage.act { window_millis := W, events := evs, active := false }
          (l.map (fun e => Msg.with_data (MsgData.LivePriceUpdated e)))
        = ({ window_millis := W,
             events := evs ++ l.map (fun e => { datetime := e.datetime, price := e.price }),
             active := false }, List.replicate l.length []) := by
    intro l
    induction l with
    | nil => intro evs _ _; simp [runActor]
    | cons e l ih =>
      intro evs h1 h2
      have hret : SlidingAverage.retained
            { window_millis := W, events := evs, active := false } e
          = evs ++ [{ datetime := e.datetime, price := e.price }] := by
        refine List.filter_eq_self.mpr ?_
        intro i hi
        rcases List.mem_append.mp hi with hi | hi
        · exact h1 e (by simp) i hi
        · rcases List.mem_singleton.mp hi with rfl
          exact keep_self W e
      have hact : SlidingAverage.act
            { window_millis := W, events := evs, active := false }
            (Msg.with_data (MsgData.LivePriceUpdated e))
          = ({ window_millis := W,
               events := evs ++ [{ datetime := e.datetime, price := e.price }],
               active := false }, []) := by
        rw [sliding_act_live _ _ e rfl, hret]
        simp
      have h1' : ∀ p ∈ l, ∀ i ∈ evs ++ [({ datetime := e.datetime, price := e.price } : TimePricePoint)],
          SlidingAverage.keep W p.datetime i = true := by
        intro p hp i hi
        rcases List.mem_append.mp hi with hi | hi
        · exact h1 p (by simp [hp]) i hi
        · rcases List.mem_singleton.mp hi with rfl
          exact h2 p (by simp [hp]) e (by simp)
      have h2' : ∀ p ∈ l, ∀ q ∈ l,
          SlidingAverage.keep W p.datetime
            { datetime := q.datetime, price := q.price } = true :=
        fun p hp q hq => h2 p (by simp [hp]) q (by simp [hq])
      have hrec := ih (evs ++ [{ datetime := e.datetime, price := e.price }]) h1' h2'
      simp only [List.map_cons, runActor, hact, hrec]
      simp [List.replicate_succ]
  have hkeep : ∀ p ∈ ps, ∀ q ∈ ps,
      SlidingAverage.keep W p.datetime
        { datetime := q.datetime, price := q.price } = true := by
    intro p hp q hq
    exact decide_eq_true (h p hp q hq)
  have hmain := aux ps [] (by intro p _ i hi; cases hi) hkeep
  refine ⟨?_, ?_, ?_⟩
  · rw [show SlidingAverage.new W =
        { window_millis := W, events := [], active := false } from rfl, hmain]
  · rw [show SlidingAverage.new W =
        { window_millis := W, events := [], active := false } from rfl, hmain]
    simp
  · intro s msg e hd hlen
    rw [sliding_act_live s msg e hd]
    simp [hlen]

/-- Witness for C4 as amended: two points 500 ms apart inside a 1000 ms
window produce no output and leave the actor inactive. -/
theorem sliding_average_windowed_warmup_witness :
    (runActor SlidingAverage.act (SlidingAverage.new 1000)
        ([({ pair_id := "pair_id", datetime := 0, price := 1 } : PriceUpdated),
          { pair_id := "pair_id", datetime := 500, price := 2 }].map
          (fun e => Msg.with_data (MsgData.LivePriceUpdated e)))).2
      = List.replicate
          ([({ pair_id := "pair_id", datetime := 0, price := 1 } : PriceUpdated),
            { pair_id := "pair_id", datetime := 500, price := 2 }].length) [] :=
  (sliding_average_windowed_warmup 1000
    [{ pair_id := "pair_id", datetime := 0, price := 1 },
     { pair_id := "pair_id", datetime := 500, price := 2 }] (by decide)).1

/-- C5 counterexample: with offset 0, on the inputs Average(1), Live(2),
Average(3), Live(4), the crossover actor emits Buy twice in a row with no
intervening LivePriceUpdated input at all (hence no live price excursion
past the opposite band): the moving average rose above the stored previous
live price, making the Buy guard pass again. -/
theorem crossover_repeat_signal_cex :
    (runActor SimpleCrossover.act (SimpleCrossover.new 0)
      [Msg.with_data (MsgData.AveragePriceUpdated
        { pair_id := "pair_id", datetime := 0, price := 1 }),
       Msg.with_data (MsgData.LivePriceUpdated
        { pair_id := "pair_id", datetime := 1, price := 2 }),
       Msg.with_data (MsgData.AveragePriceUpdated
        { pair_id := "pair_id", datetime := 2, price := 3 }),
       Msg.with_data (MsgData.LivePriceUpdated
        { pair_id := "pair_id", datetime := 3, price := 4 })]).2
      = [[], [MsgData.Buy], [], [MsgData.Buy]] := by
  norm_num [runActor, SimpleCrossover.act, SimpleCrossover.new, Msg.with_data, optLtB]

/-- Inversion: a Buy emission characterizes the input and state. -/
theorem crossover_buy_inversion (s s1 : SimpleCrossover) (m : Msg)
    (h : s.act m = (s1, [MsgData.Buy])) :
    ∃ e a, m.data = MsgData.LivePriceUpdated e ∧ s.latest_average = some a ∧
      a * (1 + s.offset) < e.price ∧
      (s.latest_live = none ∨
        ∃ l, s.latest_live = some l ∧ l < a * (1 + s.offset)) ∧
      s1 = { s with latest_live := some e.price } := by
  cases hd : m.data with
  | LivePriceUpdated e =>
    cases havg : s.latest_average with
    | none => simp [SimpleCrossover.act, hd, havg] at h
    | some a =>
      by_cases hc1 : (decide (a * (1 + s.offset) < e.price) &&
          (s.latest_live.isNone ||
            optLtB s.latest_live (some (a * (1 + s.offset))))) = true
      · have hp := (buyCond_iff s a e.price).mp hc1
        have hfst : (s.act m).1 = { s with latest_live := some e.price } := by
          simp [SimpleCrossover.act, hd, havg]
        refine ⟨e, a, rfl, rfl, hp.1, hp.2, ?_⟩
        rw [← havg]
        exact (congrArg Prod.fst h).symm.trans hfst
      · rw [Bool.not_eq_true] at hc1
        by_cases hc2 : (decide (e.price < a * (1 - s.offset)) &&
            (s.latest_live.isNone ||
              optLtB (some (a * (1 - s.offset))) s.latest_live)) = true
        · simp [SimpleCrossover.act, hd, havg, hc1, hc2] at h
        · rw [Bool.not_eq_true] at hc2
          simp [SimpleCrossover.act, hd, havg, hc1, hc2] at h
  | AveragePriceUpdated e => simp [SimpleCrossover.act, hd] at h
  | Bought o => simp [SimpleCrossover.act, hd] at h
  | Sold o => simp [SimpleCrossover.act, hd] at h
  | Buy => simp [SimpleCrossover.act, hd] at h
  | Sell => simp [SimpleCrossover.act, hd] at h
  | Shutdown => simp [SimpleCrossover.act, hd] at h

/-- Inversion: a Sell emission characterizes the input and state. -/
theorem crossover_sell_inversion (s s1 : SimpleCrossover) (m : Msg)
    (h : s.act m = (s1, [MsgData.Sell])) :
    ∃ e a, m.data = MsgData.LivePriceUpdated e ∧ s.latest_average = some a ∧
      e.price < a * (1 - s.offset) ∧
      (s.latest_live = none ∨
        ∃ l, s.latest_live = some l ∧ a * (1 - s.offset) < l) ∧
      s1 = { s with latest_live := some e.price } := by
  cases hd : m.data with
  | LivePriceUpdated e =>
    cases havg : s.latest_average with
    | none => simp [SimpleCrossover.act, hd, havg] at h
    | some a =>
      by_cases hc1 : (decide (a * (1 + s.offset) < e.price) &&
          (s.latest_live.isNone ||
            optLtB s.latest_live (some (a * (1 + s.offset))))) = true
      · simp [SimpleCrossover.act, hd, havg, hc1] at h
      · rw [Bool.not_eq_true] at hc1
        by_cases hc2 : (decide (e.price < a * (1 - s.offset)) &&
            (s.latest_live.isNone ||
              optLtB (some (a * (1 - s.offset))) s.latest_live)) = true
        · have hp := (sellCond_iff s a e.price).mp hc2
          have hfst : (s.act m).1 = { s with latest_live := some e.price } := by
            simp [SimpleCrossover.act, hd, havg]
          refine ⟨e, a, rfl, rfl, hp.1, hp.2, ?_⟩
          rw [← havg]
          exact (congrArg Prod.fst h).symm.trans hfst
        · rw [Bool.not_eq_true] at hc2
          simp [SimpleCrossover.act, hd, havg, hc1, hc2] at h
  | AveragePriceUpdated e => simp [SimpleCrossover.act, hd] at h
  | Bought o => simp [SimpleCrossover.act, hd] at h
  | Sold o => simp [SimpleCrossover.act, hd] at h
  | Buy => simp [SimpleCrossover.act, hd] at h
  | Sell => simp [SimpleCrossover.act, hd] at h
  | Shutdown => simp [SimpleCrossover.act, hd] at h

/-- If the stored previous live price is already above the upper band, no
Buy can be emitted on the next input. -/
theorem crossover_no_repeat_buy (s : SimpleCrossover) (a p : ℚ) (m : Msg)
    (ha : s.latest_average = some a) (hl : s.latest_live = some p)
    (hp : a * (1 + s.offset) < p) : (s.act m).2 ≠ [MsgData.Buy] := by
  cases hd : m.data with
  | LivePriceUpdated e =>
    have hc1 : (s.latest_live.isNone ||
        optLtB s.latest_live (some (a * (1 + s.offset)))) = false := by
      simp [hl, optLtB, lt_asymm hp]
    simp only [SimpleCrossover.act, hd, ha]
    rw [hc1]
    simp only [Bool.and_false, Bool.false_eq_true, if_false]
    split <;> simp
  | AveragePriceUpdated e => simp [SimpleCrossover.act, hd]
  | Bought o => simp [SimpleCrossover.act, hd]
  | Sold o => simp [SimpleCrossover.act, hd]
  | Buy => simp [SimpleCrossover.act, hd]
  | Sell => simp [SimpleCrossover.act, hd]
  | Shutdown => simp [SimpleCrossover.act, hd]

/-- If the stored previous live price is already below the lower band, no
Sell can be emitted on the next input. -/
theorem crossover_no_repeat_sell (s : SimpleCrossover) (a p : ℚ) (m : Msg)
    (ha : s.latest_average = some a) (hl : s.latest_live = some p)
    (hp : p < a * (1 - s.offset)) : (s.act m).2 ≠ [MsgData.Sell] := by
  cases hd : m.data with
  | LivePriceUpdated e =>
    have hc2 : (s.latest_live.isNone ||
        optLtB (some (a * (1 - s.offset))) s.latest_live) = false := by
      simp [hl, optLtB, lt_asymm hp]
    simp only [SimpleCrossover.act, hd, ha]
    rw [hc2]
    simp only [Bool.and_false, Bool.false_eq_true, if_false]
    split <;> simp
  | AveragePriceUpdated e => simp [SimpleCrossover.act, hd]
  | Bought o => simp [SimpleCrossover.act, hd]
  | Sold o => simp [SimpleCrossover.act, hd]
  | Buy => simp [SimpleCrossover.act, hd]
  | Sell => simp [SimpleCrossover.act, hd]
  | Shutdown => simp [SimpleCrossover.act, hd]

/-- C5 as amended: a signal is only emitted on a live update that lies
strictly outside the band of the current average, and only when the stored
previous live price (if any) lies strictly on the opposite side of that same
boundary; since the signal records a live price strictly outside the
boundary, a second same-direction signal can never follow on the very next
input — an intervening input that moves the stored live price (or the
average, hence the band) back across that boundary is required. -/
theorem crossover_hysteresis_amended (s s1 : SimpleCrossover) (m1 m2 : Msg) :
    (s.act m1 = (s1, [MsgData.Buy]) →
      (∃ e a, m1.data = MsgData.LivePriceUpdated e ∧ s.latest_average = some a ∧
        a * (1 + s.offset) < e.price ∧
        (s.latest_live = none ∨
          ∃ l, s.latest_live = some l ∧ l < a * (1 + s.offset)) ∧
        s1 = { s with latest_live := some e.price }) ∧
      (s1.act m2).2 ≠ [MsgData.Buy]) ∧
    (s.act m1 = (s1, [MsgData.Sell]) →
      (∃ e a, m1.data = MsgData.LivePriceUpdated e ∧ s.latest_average = some a ∧
        e.price < a * (1 - s.offset) ∧
        (s.latest_live = none ∨
          ∃ l, s.latest_live = some l ∧ a * (1 - s.offset) < l) ∧
        s1 = { s with latest_live := some e.price }) ∧
      (s1.act m2).2 ≠ [MsgData.Sell]) := by
  constructor
  · intro h
    obtain ⟨e, a, hd, havg, hp, hlcond, hs1⟩ := crossover_buy_inversion s s1 m1 h
    refine ⟨⟨e, a, hd, havg, hp, hlcond, hs1⟩, ?_⟩
    apply crossover_no_repeat_buy s1 a e.price m2
    · rw [hs1]; exact havg
    · rw [hs1]
    · rw [hs1]; exact hp
  · intro h
    obtain ⟨e, a, hd, havg, hp, hlcond, hs1⟩ := crossover_sell_inversion s s1 m1 h
    refine ⟨⟨e, a, hd, havg, hp, hlcond, hs1⟩, ?_⟩
    apply crossover_no_repeat_sell s1 a e.price m2
    · rw [hs1]; exact havg
    · rw [hs1]
    · rw [hs1]; exact hp

/-- Witness for C5 as amended: from average 1 with no stored live price, a
live update at 2 emits Buy, and the successor state cannot emit Buy on the
next live update at 3. -/
theorem crossover_hysteresis_amended_witness :
    (∃ e a,
      (Msg.with_data (MsgData.LivePriceUpdated
        { pair_id := "pair_id", datetime := 1, price := 2 })).data
          = MsgData.LivePriceUpdated e ∧
      ({ offset := 0, latest_average := some 1, latest_live := none }
          : SimpleCrossover).latest_average = some a ∧
      a * (1 + ({ offset := 0, latest_average := some 1, latest_live := none }
          : SimpleCrossover).offset) < e.price ∧
      (({ offset := 0, latest_average := some 1, latest_live := none }
          : SimpleCrossover).latest_live = none ∨
        ∃ l, ({ offset := 0, latest_average := some 1, latest_live := none }
          : SimpleCrossover).latest_live = some l ∧
          l < a * (1 + ({ offset := 0, latest_average := some 1, latest_live := none }
            : SimpleCrossover).offset)) ∧
      ({ offset := 0, latest_average := some 1, latest_live := some 2 }
          : SimpleCrossover)
        = { ({ offset := 0, latest_average := some 1, latest_live := none }
            : SimpleCrossover) with latest_live := some e.price }) ∧
    (SimpleCrossover.act
        { offset := 0, latest_average := some 1, latest_live := some 2 }
        (Msg.with_data (MsgData.LivePriceUpdated
          { pair_id := "pair_id", datetime := 2, price := 3 }))).2
      ≠ [MsgData.Buy] :=
  (crossover_hysteresis_amended
      { offset := 0, latest_average := some 1, latest_live := none }
      { offset := 0, latest_average := some 1, latest_live := some 2 }
      (Msg.with_data (MsgData.LivePriceUpdated
        { pair_id := "pair_id", datetime := 1, price := 2 }))
      (Msg.with_data (MsgData.LivePriceUpdated
        { pair_id := "pair_id", datetime := 2, price := 3 }))).1
    (by simp [SimpleCrossover.act, Msg.with_data, optLtB])
